import Mathlib

/-!
Verification of the oh-my-pi log filter (packages/ai/scripts/cursor-log.py)
and the shell helpers of the notebook prelude
(packages/coding-agent/src/core/python-prelude.py).

JSON values are modelled by the mutual inductives JVal / JList / JObjL
(arrays and objects carry their own list types so that all functions are
structurally recursive and reduce in the kernel).  Python `None` is
modelled as `JVal.null`; JSON numbers are modelled as integers (the log
records only carry integer timestamps and counts).  Python operations
that can raise (`.get` on a non-dict, slicing a non-sliceable value,
`datetime.fromtimestamp` on a non-number) return `Except String`, the
error string naming the Python exception.
-/

mutual

inductive JVal : Type where
  | null : JVal
  | bool : Bool → JVal
  | num : Int → JVal
  | str : String → JVal
  | arr : JList → JVal
  | obj : JObjL → JVal

inductive JList : Type where
  | nil : JList
  | cons : JVal → JList → JList

inductive JObjL : Type where
  | nil : JObjL
  | cons : String → JVal → JObjL → JObjL

end

/-- Dict lookup in insertion order (Python dict `[]` / `get`). -/
def JObjL.lookup : JObjL → String → Option JVal
  | .nil, _ => none
  | .cons k v tl, key => if k = key then some v else JObjL.lookup tl key

def JObjL.isEmpty : JObjL → Bool
  | .nil => true
  | .cons _ _ _ => false

def JObjL.ofList : List (String × JVal) → JObjL
  | [] => .nil
  | (k, v) :: tl => .cons k v (JObjL.ofList tl)

def JList.take : Nat → JList → JList
  | 0, _ => .nil
  | _, .nil => .nil
  | n + 1, .cons v tl => .cons v (JList.take n tl)

/-- A parsed log record: a JSON object (Python dict). -/
abbrev Entry := JObjL

/-- Python truthiness of a JSON value. -/
def truthy : JVal → Bool
  | .null => false
  | .bool b => b
  | .num n => n != 0
  | .str s => s != ""
  | .arr .nil => false
  | .arr (.cons _ _) => true
  | .obj .nil => false
  | .obj (.cons _ _ _) => true

/-- Python `v == "s"` for a string literal `s`. -/
def JVal.eqs : JVal → String → Bool
  | .str t, s => t == s
  | _, _ => false

/-- Python `v in names` for a set of string literals. -/
def JVal.memStrs : JVal → List String → Bool
  | .str t, names => names.contains t
  | _, _ => false

def JVal.isNull : JVal → Bool
  | .null => true
  | _ => false

/-- `entry.get(k, dflt)` on a record (always a dict). -/
def dget (e : Entry) (k : String) (dflt : JVal) : JVal :=
  (e.lookup k).getD dflt

/-- `v.get(k, dflt)` on an arbitrary value: AttributeError unless a dict. -/
def pyGet (v : JVal) (k : String) (dflt : JVal) : Except String JVal :=
  match v with
  | .obj fs => .ok ((fs.lookup k).getD dflt)
  | _ => .error "AttributeError"

/-- `s[:n]` on a string, via the character list. -/
def pyTake (s : String) (n : Nat) : String :=
  String.mk (s.data.take n)

/-- `v[:n]`: TypeError unless the value is sliceable (str or list). -/
def pySlice (v : JVal) (n : Nat) : Except String JVal :=
  match v with
  | .str s => .ok (.str (pyTake s n))
  | .arr xs => .ok (.arr (JList.take n xs))
  | _ => .error "TypeError"

def replAux : Nat → List Char → List Char → List Char → List Char
  | 0, cs, _, _ => cs
  | _, [], _, _ => []
  | fuel + 1, c :: rest, pat, rep =>
    if pat.isPrefixOf (c :: rest) then
      rep ++ replAux fuel ((c :: rest).drop pat.length) pat rep
    else
      c :: replAux fuel rest pat rep

/-- Python `s.replace(pat, rep)`: leftmost, non-overlapping. -/
def replaceAll (s pat rep : String) : String :=
  String.mk (replAux s.data.length s.data pat.data rep.data)

def isPyWs (c : Char) : Bool :=
  (c == ' ') || (c == '\t') || (c == '\n') || (c == '\r') || (c == '\x0b') || (c == '\x0c')

/-- Python `s.strip()`. -/
def pyStrip (s : String) : String :=
  String.mk (((s.data.dropWhile isPyWs).reverse.dropWhile isPyWs).reverse)

def digitChar (d : Nat) : Char := Char.ofNat (48 + d)

def pad2 (k : Nat) : String :=
  String.mk [digitChar (k / 10), digitChar (k % 10)]

def pad3 (k : Nat) : String :=
  String.mk [digitChar (k / 100), digitChar (k / 10 % 10), digitChar (k % 10)]

/-- Model of `datetime.fromtimestamp(ms / 1000).strftime("%H:%M:%S.%f")[:-3]`
for an integer count of epoch milliseconds, with the local timezone taken
as UTC (the rendered wall-clock offset is environmental and irrelevant to
the claims, which only need the conversion to be the strftime clock form). -/
def msToClock (ms : Int) : String :=
  let secOfDay : Nat := ((ms.fdiv 1000).emod 86400).toNat
  let milli : Nat := (ms.emod 1000).toNat
  pad2 (secOfDay / 3600) ++ ":" ++ pad2 (secOfDay % 3600 / 60) ++ ":" ++
    pad2 (secOfDay % 60) ++ "." ++ pad3 milli

mutual

/-- JSON string escaping used by `json.dumps` (common escapes; `\uXXXX`
escaping of other control and non-ASCII characters is not exercised by
any record considered here). -/
def jstrEscCore : List Char → List Char
  | [] => []
  | c :: cs =>
    if c = '"' then '\\' :: '"' :: jstrEscCore cs
    else if c = '\\' then '\\' :: '\\' :: jstrEscCore cs
    else if c = '\n' then '\\' :: 'n' :: jstrEscCore cs
    else if c = '\t' then '\\' :: 't' :: jstrEscCore cs
    else if c = '\r' then '\\' :: 'r' :: jstrEscCore cs
    else c :: jstrEscCore cs

end

def jstrEsc (s : String) : String :=
  "\"" ++ String.mk (jstrEscCore s.data) ++ "\""

mutual

/-- `json.dumps` with the default separators. -/
def jdump : JVal → String
  | .null => "null"
  | .bool true => "true"
  | .bool false => "false"
  | .num n => toString n
  | .str s => jstrEsc s
  | .arr xs => "[" ++ jdumpArr xs ++ "]"
  | .obj fs => "\x7b" ++ jdumpObj fs ++ "\x7d"

def jdumpArr : JList → String
  | .nil => ""
  | .cons x .nil => jdump x
  | .cons x tl => jdump x ++ ", " ++ jdumpArr tl

def jdumpObj : JObjL → String
  | .nil => ""
  | .cons k v .nil => jstrEsc k ++ ": " ++ jdump v
  | .cons k v tl => jstrEsc k ++ ": " ++ jdump v ++ ", " ++ jdumpObj tl

end

mutual

/-- Python `repr` of a JSON value (used by `str` on containers). -/
def pyRepr : JVal → String
  | .null => "None"
  | .bool true => "True"
  | .bool false => "False"
  | .num n => toString n
  | .str s => "\x27" ++ s ++ "\x27"
  | .arr xs => "[" ++ pyReprArr xs ++ "]"
  | .obj fs => "\x7b" ++ pyReprObj fs ++ "\x7d"

def pyReprArr : JList → String
  | .nil => ""
  | .cons x .nil => pyRepr x
  | .cons x tl => pyRepr x ++ ", " ++ pyReprArr tl

def pyReprObj : JObjL → String
  | .nil => ""
  | .cons k v .nil => "\x27" ++ k ++ "\x27: " ++ pyRepr v
  | .cons k v tl => "\x27" ++ k ++ "\x27: " ++ pyRepr v ++ ", " ++ pyReprObj tl

end

/-- Python `str(v)` (f-string interpolation). -/
def pyToStr : JVal → String
  | .str s => s
  | v => pyRepr v

def SKIP_DELTAS : List String :=
  ["tokenDelta", "partialToolCall", "heartbeat", "thinkingDelta"]

def COALESCE_DELTAS : List String := ["textDelta"]

/-- `get_delta_type` from cursor-log.py (Python `None` is `JVal.null`). -/
def get_delta_type (entry : Entry) : JVal :=
  let typ := dget entry "type" (.str "")
  let subtype := dget entry "subtype" (.str "")
  if typ.eqs "interactionUpdate" && subtype.memStrs (SKIP_DELTAS ++ COALESCE_DELTAS) then
    subtype
  else if typ.eqs "info" && subtype.eqs "interactionUpdate" then
    match dget entry "data" (.obj .nil) with
    | .obj fs => (fs.lookup "updateCase").getD .null
    | _ => .null
  else .null

/-- `is_noise` from cursor-log.py. -/
def is_noise (entry : Entry) (verbose : Bool) : Bool :=
  if verbose then false
  else
    let typ := dget entry "type" (.str "")
    let subtype := dget entry "subtype" (.str "")
    if typ.eqs "serverMessage" && subtype.eqs "interactionUpdate" then true
    else if typ.eqs "kvClient" || (typ.eqs "serverMessage" && subtype.eqs "kvServerMessage") then true
    else if typ.eqs "serverMessage" && subtype.eqs "conversationCheckpointUpdate" then true
    else if typ.eqs "execClient" && subtype.eqs "requestContextResult" then true
    else (get_delta_type entry).memStrs SKIP_DELTAS

def filterFields : JObjL → JObjL
  | .nil => .nil
  | .cons k v tl =>
    if !v.isNull && k != "detail" && k != "$typeName" then
      .cons k v (filterFields tl)
    else filterFields tl

/-- `format_data` from cursor-log.py.  `data` is the raw value of the
record's "data" key (`JVal.null` when absent). -/
def format_data (typ subtype : JVal) (data : JVal) : Except String String :=
  match data with
  | .obj (.cons k0 v0 fs0) =>
    let dfs := JObjL.cons k0 v0 fs0
    if typ.eqs "serverMessage" && subtype.eqs "execServerMessage" then
      let msg := (dfs.lookup "message").getD (.obj .nil)
      match pyGet msg "case" (.str "") with
      | .error err => .error err
      | .ok case_ =>
        match pyGet msg "value" (.obj .nil) with
        | .error err => .error err
        | .ok value =>
          if case_.eqs "mcpArgs" then
            match pyGet value "name" .null with
            | .error err => .error err
            | .ok name =>
              match pyGet value "toolName" .null with
              | .error err => .error err
              | .ok name2 =>
                let nameV := if truthy name then name
                  else if truthy name2 then name2 else .str "?"
                match pyGet value "args" (.obj .nil) with
                | .error err => .error err
                | .ok args =>
                  let argsStr := if truthy args then jdump args else ""
                  let argsStr := if argsStr.length > 200 then pyTake argsStr 200 ++ "..." else argsStr
                  .ok (" mcp:" ++ pyToStr nameV ++ " " ++ argsStr)
          else if case_.eqs "grepArgs" then
            match pyGet value "pattern" (.str "") with
            | .error err => .error err
            | .ok pat =>
              match pyGet value "path" (.str ".") with
              | .error err => .error err
              | .ok path =>
                if truthy pat then
                  match pySlice pat 30 with
                  | .error err => .error err
                  | .ok p30 =>
                    match pySlice path 30 with
                    | .error err => .error err
                    | .ok pa30 => .ok (" grep:" ++ pyToStr p30 ++ "@" ++ pyToStr pa30)
                else
                  match pySlice path 30 with
                  | .error err => .error err
                  | .ok pa30 => .ok (" grep@" ++ pyToStr pa30)
          else if case_.eqs "shellArgs" then
            match pyGet value "command" (.str "") with
            | .error err => .error err
            | .ok cmdv =>
              match pySlice cmdv 50 with
              | .error err => .error err
              | .ok cmds => .ok (" shell:" ++ pyToStr cmds)
          else if case_.memStrs ["readArgs", "writeArgs", "lsArgs", "deleteArgs"] then
            match pyGet value "path" (.str "") with
            | .error err => .error err
            | .ok path =>
              if truthy path then
                match pySlice path 60 with
                | .error err => .error err
                | .ok p60 =>
                  .ok (" " ++ replaceAll (pyToStr case_) "Args" "" ++ ":" ++ pyToStr p60)
              else .ok (" " ++ pyToStr case_)
          else .ok (" " ++ pyToStr case_)
    else if typ.eqs "info" && subtype.eqs "interactionUpdate" then
      .ok (" " ++ pyToStr ((dfs.lookup "updateCase").getD (.str "")))
    else if typ.eqs "info" && subtype.eqs "builtRunRequest" then
      .ok (" tools=" ++ pyToStr ((dfs.lookup "tools").getD (.num 0)))
    else if typ.eqs "info" && subtype.eqs "execClientMessage" then
      .ok (" " ++ pyToStr ((dfs.lookup "messageCase").getD (.str "")))
    else
      let filtered := filterFields dfs
      if filtered.isEmpty then .ok ""
      else
        let s := jdump (.obj filtered)
        .ok (if s.length > 120 then " " ++ pyTake s 120 ++ "..." else " " ++ s)
  | _ => .ok ""

/-- `format_entry` from cursor-log.py: `ok none` models returning Python
`None` (noise), `error` models an uncaught exception. -/
def format_entry (entry : Entry) (verbose : Bool) : Except String (Option String) :=
  if is_noise entry verbose then .ok none
  else
    let ts := dget entry "ts" (.num 0)
    let typ := dget entry "type" (.str "?")
    let subtype := dget entry "subtype" .null
    let data := dget entry "data" .null
    let timeRes : Except String String :=
      if truthy ts then
        match ts with
        | .num n => .ok (msToClock n)
        | _ => .error "TypeError"
      else .ok "??:??:??"
    match timeRes with
    | .error err => .error err
    | .ok timeStr =>
      let typeStr := if truthy subtype then pyToStr typ ++ ":" ++ pyToStr subtype else pyToStr typ
      let dataRes : Except String String :=
        if !verbose then format_data typ (if truthy subtype then subtype else .str "") data
        else .ok ""
      match dataRes with
      | .error err => .error err
      | .ok dataStr =>
        let dataStr := if verbose && truthy data then " " ++ pyTake (jdump data) 300 else dataStr
        .ok (some ("[" ++ timeStr ++ "] " ++ typeStr ++ dataStr))

/-- `extract_text_delta` from cursor-log.py (`JVal.null` models `None`). -/
def extract_text_delta (entry : Entry) : JVal :=
  match dget entry "data" (.obj .nil) with
  | .obj fs =>
    match fs.lookup "text" with
    | some t => t
    | none =>
      match (fs.lookup "message").getD (.obj .nil) with
      | .obj ms =>
        match (ms.lookup "value").getD (.obj .nil) with
        | .obj vs =>
          match vs.lookup "text" with
          | some t => t
          | none => .null
        | _ => .null
      | _ => .null
  | _ => .null

/-- Coalescer state: accumulated output lines, pending text buffer and the
timestamp of the first fragment of the pending run. -/
structure CoSt where
  output : List String
  buffer : String
  ts : JVal

/-- `flush_text` from `coalesce_entries`: emit the pending buffer as one
line, newline-escaped and capped at 300 characters. -/
def flush_text (st : CoSt) : Except String CoSt :=
  if st.buffer != "" then
    match st.ts with
    | .num n =>
      let text := replaceAll st.buffer "\n" "\\n"
      let text := if text.length > 300 then pyTake text 300 ++ "..." else text
      .ok ⟨st.output ++ ["[" ++ msToClock n ++ "] text: " ++ text], "", .num 0⟩
    | _ => .error "TypeError"
  else .ok st

/-- One iteration of the `for entry in entries` loop in `coalesce_entries`. -/
def coalesce_step (verbose : Bool) (st : CoSt) (entry : Entry) : Except String CoSt :=
  let typ := dget entry "type" (.str "")
  let subtype := dget entry "subtype" (.str "")
  if typ.eqs "interactionUpdate" && subtype.eqs "textDelta" then
    let text := extract_text_delta entry
    if truthy text then
      match text with
      | .str s =>
        let st1 := if st.buffer = "" then { st with ts := dget entry "ts" (.num 0) } else st
        .ok { st1 with buffer := st1.buffer ++ s }
      | _ => .error "TypeError"
    else .ok st
  else if is_noise entry verbose then .ok st
  else
    match flush_text st with
    | .error err => .error err
    | .ok st1 =>
      match format_entry entry verbose with
      | .error err => .error err
      | .ok (some line) =>
        .ok { st1 with output := st1.output ++ (if line != "" then [line] else []) }
      | .ok none => .ok st1

def runSteps (verbose : Bool) : CoSt → List Entry → Except String CoSt
  | st, [] => .ok st
  | st, e :: es =>
    match coalesce_step verbose st e with
    | .error err => .error err
    | .ok st1 => runSteps verbose st1 es

/-- `coalesce_entries` from cursor-log.py. -/
def coalesce_entries (entries : List Entry) (verbose : Bool) : Except String (List String) :=
  match runSteps verbose ⟨[], "", .num 0⟩ entries with
  | .error err => .error err
  | .ok st =>
    match flush_text st with
    | .error err => .error err
    | .ok st1 => .ok st1.output

/-!
Model of `json.loads` for the parse paths.  Recursive-descent with a fuel
bound generous for any input the claims consider (integer numbers;
`\uXXXX` escapes and float literals are outside the records modelled
here).
-/

def skipWs : List Char → List Char
  | [] => []
  | c :: cs =>
    if c = ' ' || c = '\t' || c = '\n' || c = '\r' then skipWs cs else c :: cs

def escMap (c : Char) : Option Char :=
  if c = '"' then some '"'
  else if c = '\\' then some '\\'
  else if c = '/' then some '/'
  else if c = 'n' then some '\n'
  else if c = 't' then some '\t'
  else if c = 'r' then some '\r'
  else if c = 'b' then some '\x08'
  else if c = 'f' then some '\x0c'
  else none

def parseStrBody : Nat → List Char → Except String (String × List Char)
  | 0, _ => .error "Unterminated string"
  | _, [] => .error "Unterminated string"
  | fuel + 1, c :: cs =>
    if c = '"' then .ok ("", cs)
    else if c = '\\' then
      match cs with
      | e :: cs2 =>
        match escMap e with
        | some ec =>
          match parseStrBody fuel cs2 with
          | .ok (s, rest) => .ok (String.mk (ec :: s.data), rest)
          | .error err => .error err
        | none => .error "Invalid escape"
      | [] => .error "Unterminated string"
    else
      match parseStrBody fuel cs with
      | .ok (s, rest) => .ok (String.mk (c :: s.data), rest)
      | .error err => .error err

def digitsToNat (ds : List Char) : Nat :=
  ds.foldl (fun a c => a * 10 + (c.toNat - 48)) 0

mutual

def parseVal : Nat → List Char → Except String (JVal × List Char)
  | 0, _ => .error "Too deep"
  | fuel + 1, cs =>
    match skipWs cs with
    | [] => .error "Expecting value"
    | c :: rest =>
      if c = 'n' then
        match rest with
        | 'u' :: 'l' :: 'l' :: r => .ok (.null, r)
        | _ => .error "Expecting value"
      else if c = 't' then
        match rest with
        | 'r' :: 'u' :: 'e' :: r => .ok (.bool true, r)
        | _ => .error "Expecting value"
      else if c = 'f' then
        match rest with
        | 'a' :: 'l' :: 's' :: 'e' :: r => .ok (.bool false, r)
        | _ => .error "Expecting value"
      else if c = '"' then
        match parseStrBody (rest.length + 1) rest with
        | .ok (s, r) => .ok (.str s, r)
        | .error err => .error err
      else if c = '-' then
        match rest.span Char.isDigit with
        | ([], _) => .error "Expecting value"
        | (ds, r) => .ok (.num (-(digitsToNat ds : Int)), r)
      else if c.isDigit then
        match (c :: rest).span Char.isDigit with
        | (ds, r) => .ok (.num (digitsToNat ds : Int), r)
      else if c = '\x7b' then
        match skipWs rest with
        | '\x7d' :: r => .ok (.obj .nil, r)
        | other => parseMembers fuel other
      else if c = '[' then
        match skipWs rest with
        | ']' :: r => .ok (.arr .nil, r)
        | other => parseItems fuel other
      else .error "Expecting value"

def parseMembers : Nat → List Char → Except String (JVal × List Char)
  | 0, _ => .error "Too deep"
  | fuel + 1, cs =>
    match skipWs cs with
    | '"' :: rest =>
      match parseStrBody (rest.length + 1) rest with
      | .error err => .error err
      | .ok (key, r1) =>
        match skipWs r1 with
        | ':' :: r2 =>
          match parseVal fuel r2 with
          | .error err => .error err
          | .ok (v, r3) =>
            match skipWs r3 with
            | ',' :: r4 =>
              match parseMembers fuel r4 with
              | .ok (.obj fs, r5) => .ok (.obj (.cons key v fs), r5)
              | .ok _ => .error "Expecting object"
              | .error err => .error err
            | '\x7d' :: r4 => .ok (.obj (.cons key v .nil), r4)
            | _ => .error "Expecting delimiter"
        | _ => .error "Expecting colon"
    | _ => .error "Expecting property name"

def parseItems : Nat → List Char → Except String (JVal × List Char)
  | 0, _ => .error "Too deep"
  | fuel + 1, cs =>
    match parseVal fuel cs with
    | .error err => .error err
    | .ok (v, r1) =>
      match skipWs r1 with
      | ',' :: r2 =>
        match parseItems fuel r2 with
        | .ok (.arr xs, r3) => .ok (.arr (.cons v xs), r3)
        | .ok _ => .error "Expecting array"
        | .error err => .error err
      | ']' :: r2 => .ok (.arr (.cons v .nil), r2)
      | _ => .error "Expecting delimiter"

end

/-- Model of `json.loads` on one line. -/
def json_loads (s : String) : Except String JVal :=
  match parseVal (2 * s.length + 4) s.data with
  | .ok (v, rest) => if (skipWs rest).isEmpty then .ok v else .error "Extra data"
  | .error err => .error err

/-- One line of the batch loop in `parse_entries`: a parsed record is
appended to the entry list, a malformed line appends a truncated preview
to the stderr report list. -/
def batch_ingest (acc : List JVal × List String) (line : String) : List JVal × List String :=
  if pyStrip line != "" then
    match json_loads line with
    | .ok v => (acc.1 ++ [v], acc.2)
    | .error _ => (acc.1, acc.2 ++ ["[PARSE ERROR] " ++ pyTake line 100])
  else acc

/-- `parse_entries` from cursor-log.py, over the file's lines
(read_text().strip().split newline); returns the parsed entries and the
stderr parse-error reports. -/
def parse_entries (lines : List String) (lastN : Nat) : List JVal × List String :=
  let lines2 :=
    if lastN > 0 then
      (if lines.length > lastN then lines.drop (lines.length - lastN) else lines)
    else lines
  lines2.foldl batch_ingest ([], [])

/-- One polled line of the follow-mode loop in `process_file`: the
`except json.JSONDecodeError: pass` silently drops a malformed line,
reporting nothing. -/
def follow_ingest (acc : List JVal × List String) (line : String) : List JVal × List String :=
  if line != "" && pyStrip line != "" then
    match json_loads line with
    | .ok v => (acc.1 ++ [v], acc.2)
    | .error _ => acc
  else acc

/-!
Model of the shell helpers of python-prelude.py.  The operating system is
an oracle: a `ProcB` records how the `communicate` calls of one spawned
process behave (return, raise KeyboardInterrupt, raise TimeoutExpired),
and the environment record captures the `os.environ` / `shutil.which`
queries the helpers make.  `killpg` is assumed to succeed; status-event
emission is a display side effect and not modelled.
-/

namespace PyPrelude

structure ShellResult where
  stdout : String
  stderr : String
  code : Int

inductive Sig where
  | sigint : Sig
  | sigkill : Sig
deriving DecidableEq

inductive CommFirst where
  | ret : String → String → CommFirst
  | kbInterrupt : CommFirst
  | timedOut : CommFirst

/-- Behavior of the spawned process: outcome of the first `communicate`,
of the 2-second `communicate` after SIGINT (`none` = TimeoutExpired), the
output of the final unconditional `communicate`, and the exit code for a
normal return. -/
structure ProcB where
  first : CommFirst
  second : Option (String × String)
  final : String × String
  code : Int

/-- `_run_with_interrupt`: always produces a ShellResult; the list records
the signals sent to the process group, in order. -/
def run_with_interrupt (args : List String) (cmd : String) (b : ProcB) :
    ShellResult × List Sig :=
  match b.first with
  | .ret o e => (⟨o, e, b.code⟩, [])
  | .kbInterrupt =>
    match b.second with
    | some (o, e) => (⟨o, e, -2⟩, [.sigint])
    | none => (⟨b.final.1, b.final.2, -2⟩, [.sigint, .sigkill])
  | .timedOut => (⟨b.final.1, b.final.2, -9⟩, [.sigkill])

/-- Environment queries made by `run` and `sh`.  Empty strings model the
falsy results of `os.environ.get`. -/
structure Env where
  shellVar : String
  shellVarWhichOk : Bool
  bash : Option String
  zsh : Option String
  shBin : Option String
  isWindows : Bool
  snapshot : String
  noLogin : Bool

/-- Shell selection in `sh`: $SHELL when set and found on PATH, else the
first of bash, zsh, sh found by `shutil.which`. -/
def sh_select_shell (env : Env) : Option String :=
  let fb := (env.bash.orElse fun _ => env.zsh).orElse fun _ => env.shBin
  if env.shellVar = "" || !env.shellVarWhichOk then fb else some env.shellVar

/-- `run`: `shutil.which("bash") or shutil.which("sh") or "/bin/sh"`
always yields a shell path, so `run` never raises. -/
def run (env : Env) (b : ProcB) (cmd : String) : ShellResult × List Sig :=
  let shellPath := ((env.bash.orElse fun _ => env.shBin).getD "/bin/sh")
  run_with_interrupt [shellPath, "-c", cmd] cmd b

/-- `sh`: login-shell execution with the environment snapshot prefix.
`winOutcome` is the result of the Windows `subprocess.run` fallback
(`none` = its TimeoutExpired propagates); the `.error` cases are the two
exceptions `sh` can let escape. -/
def sh (env : Env) (b : ProcB) (winOutcome : Option (String × String × Int))
    (cmd : String) : Except String (ShellResult × List Sig) :=
  let pfx := if env.snapshot != "" then "source \x27" ++ env.snapshot ++ "\x27 2>/dev/null && " else ""
  let final := pfx ++ cmd
  match sh_select_shell env with
  | some p =>
    let args := if env.noLogin then [p, "-c", final] else [p, "-l", "-c", final]
    .ok (run_with_interrupt args cmd b)
  | none =>
    if env.isWindows then
      match winOutcome with
      | some (o, e, c) => .ok (⟨o, e, c⟩, [])
      | none => .error "TimeoutExpired"
    else .error "RuntimeError: No suitable shell found"

end PyPrelude

/-!  Derived notions used to state the claims.  -/

/-- A record of a coalescible text run: a direct
`interactionUpdate:textDelta` record carrying a non-empty string text. -/
def RunCond (e : Entry) : Prop :=
  dget e "type" (.str "") = .str "interactionUpdate" ∧
  dget e "subtype" (.str "") = .str "textDelta" ∧
  ∃ s : String, extract_text_delta e = .str s ∧ s ≠ ""

/-- The text a fragment contributes to the accumulator. -/
def textOf (e : Entry) : String :=
  match extract_text_delta e with
  | .str s => s
  | _ => ""

/-- Concatenation of the fragment texts of a run, in input order. -/
def concatTexts : List Entry → String
  | [] => ""
  | e :: es => textOf e ++ concatTexts es

/-- The single line a flushed run renders to: first-fragment timestamp,
newlines escaped to the two-character backslash-n, capped at 300
characters with an ellipsis marker when truncated. -/
def textLine (n : Int) (t : String) : String :=
  let x := replaceAll t "\n" "\\n"
  "[" ++ msToClock n ++ "] text: " ++ (if x.length > 300 then pyTake x 300 ++ "..." else x)

def okOf (r : Except String JVal) : Option JVal :=
  match r with
  | .ok v => some v
  | .error _ => none

/-- The records batch parsing keeps: each non-blank line that parses. -/
def goodOf (lines : List String) : List JVal :=
  lines.filterMap fun l => if pyStrip l != "" then okOf (json_loads l) else none

/-- The stderr reports batch parsing makes: one truncated preview per
non-blank line that fails to parse. -/
def badOf (lines : List String) : List String :=
  (lines.filter fun l => pyStrip l != "" && (okOf (json_loads l)).isNone).map
    fun l => "[PARSE ERROR] " ++ pyTake l 100

/-- An info-wrapped text delta: type info, subtype interactionUpdate,
payload updateCase textDelta. -/
def infoWrappedTextDelta (n : Int) : Entry :=
  JObjL.ofList [("type", .str "info"), ("subtype", .str "interactionUpdate"),
    ("data", .obj (.cons "updateCase" (.str "textDelta") .nil)), ("ts", .num n)]

/-- A direct interactionUpdate:textDelta record with the given text. -/
def directTextDelta (txt : String) (m : Int) : Entry :=
  JObjL.ofList [("type", .str "interactionUpdate"), ("subtype", .str "textDelta"),
    ("data", .obj (.cons "text" (.str txt) .nil)), ("ts", .num m)]

/-!  Basic string facts used below.  -/

theorem str_data_append (a b : String) : (a ++ b).data = a.data ++ b.data := by
  cases a; cases b; rfl

theorem str_empty_append (s : String) : "" ++ s = s := by
  cases s; rfl

theorem str_append_empty (s : String) : s ++ "" = s := by
  cases s with
  | mk l => show String.mk (l ++ []) = String.mk l; rw [List.append_nil]

theorem str_append_assoc (a b c : String) : a ++ b ++ c = a ++ (b ++ c) := by
  cases a; cases b; cases c
  show String.mk _ = String.mk _
  rw [List.append_assoc]

theorem str_append_ne_empty_left (a b : String) (h : a ≠ "") : a ++ b ≠ "" := by
  cases a with
  | mk la =>
    cases b with
    | mk lb =>
      intro hc
      apply h
      have : la ++ lb = [] := congrArg String.data hc
      rcases List.append_eq_nil.mp this with ⟨h1, _⟩
      rw [h1]

theorem memStrs_true (v : JVal) (l : List String) (h : v.memStrs l = true) :
    ∃ s, v = .str s ∧ s ∈ l := by
  cases v with
  | str t => exact ⟨t, rfl, by simpa [JVal.memStrs] using h⟩
  | null => simp [JVal.memStrs] at h
  | bool b => simp [JVal.memStrs] at h
  | num n => simp [JVal.memStrs] at h
  | arr xs => simp [JVal.memStrs] at h
  | obj fs => simp [JVal.memStrs] at h

/-!  The coalescer on a run of direct text-delta fragments.  -/

theorem step_textDelta (v : Bool) (st : CoSt) (e : Entry) (h : RunCond e) :
    coalesce_step v st e = .ok ⟨st.output, st.buffer ++ textOf e,
      if st.buffer = "" then dget e "ts" (.num 0) else st.ts⟩ := by
  obtain ⟨h1, h2, s, hs, hne⟩ := h
  have ht : truthy (.str s) = true := by simp [truthy, hne]
  cases st with
  | mk out buf ts0 =>
    simp only [coalesce_step, h1, h2, hs, ht, JVal.eqs, textOf, beq_self_eq_true,
      Bool.and_self, if_true]
    by_cases hb : buf = "" <;> simp [hb]

theorem runSteps_textrun_full (v : Bool) (run : List Entry) :
    ∀ st : CoSt, st.buffer ≠ "" → (∀ e ∈ run, RunCond e) →
    runSteps v st run = .ok ⟨st.output, st.buffer ++ concatTexts run, st.ts⟩ := by
  induction run with
  | nil =>
    intro st hb _
    rw [concatTexts, str_append_empty]
    rfl
  | cons e es ih =>
    intro st hb hall
    have hc := step_textDelta v st e (hall e (by simp))
    rw [if_neg hb] at hc
    rw [runSteps, hc]
    show runSteps v ⟨st.output, st.buffer ++ textOf e, st.ts⟩ es = _
    rw [ih ⟨st.output, st.buffer ++ textOf e, st.ts⟩
      (str_append_ne_empty_left _ _ hb) (fun x hx => hall x (by simp [hx]))]
    rw [concatTexts, str_append_assoc]

theorem runSteps_textrun (v : Bool) (e : Entry) (es : List Entry) (out : List String)
    (ts0 : JVal) (he : RunCond e) (hes : ∀ x ∈ es, RunCond x) :
    runSteps v ⟨out, "", ts0⟩ (e :: es) =
      .ok ⟨out, concatTexts (e :: es), dget e "ts" (.num 0)⟩ := by
  have hc := step_textDelta v ⟨out, "", ts0⟩ e he
  rw [if_pos rfl] at hc
  obtain ⟨_, _, s, hs, hne⟩ := he
  have htx : textOf e = s := by simp [textOf, hs]
  have hnz : textOf e ≠ "" := by rw [htx]; exact hne
  rw [runSteps, hc]
  show runSteps v ⟨out, "" ++ textOf e, dget e "ts" (.num 0)⟩ es = _
  rw [str_empty_append]
  rw [runSteps_textrun_full v es ⟨out, textOf e, dget e "ts" (.num 0)⟩ hnz hes]
  rw [concatTexts]

theorem coalesce_textrun (e : Entry) (es : List Entry) (v : Bool) (n : Int)
    (he : RunCond e) (hes : ∀ x ∈ es, RunCond x)
    (hts : dget e "ts" (.num 0) = .num n) :
    coalesce_entries (e :: es) v = .ok [textLine n (concatTexts (e :: es))] := by
  have hb : concatTexts (e :: es) ≠ "" := by
    obtain ⟨_, _, s, hs, hne⟩ := he
    rw [concatTexts]
    exact str_append_ne_empty_left _ _ (by simp [textOf, hs]; exact hne)
  rw [coalesce_entries, runSteps_textrun v e es [] (.num 0) he hes, hts]
  simp only [flush_text, textLine]
  rw [if_pos (bne_iff_ne.mpr hb)]
  simp

/-- Claim C1: a maximal consecutive run of interactionUpdate:textDelta
records with non-empty extracted texts coalesces, in verbose and
non-verbose mode alike, into exactly one output line, timestamped with
the first fragment's ts and carrying the concatenation of all fragment
texts in input order, newline-escaped and capped at 300 characters with
an ellipsis marker when truncated. -/
theorem coalesce_textdelta_run (e : Entry) (es : List Entry) (v : Bool) (n : Int)
    (he : RunCond e) (hes : ∀ x ∈ es, RunCond x)
    (hts : dget e "ts" (.num 0) = .num n) :
    coalesce_entries (e :: es) v = .ok [textLine n (concatTexts (e :: es))] :=
  coalesce_textrun e es v n he hes hts

/-- Witness for C1 on a concrete two-fragment run. -/
theorem coalesce_textdelta_run_app :
    coalesce_entries
      [JObjL.ofList [("type", JVal.str "interactionUpdate"), ("subtype", JVal.str "textDelta"),
         ("data", JVal.obj (.cons "text" (.str "Hel") .nil)), ("ts", JVal.num 1000)],
       JObjL.ofList [("type", JVal.str "interactionUpdate"), ("subtype", JVal.str "textDelta"),
         ("data", JVal.obj (.cons "text" (.str "lo") .nil)), ("ts", JVal.num 1002)]] false
    = .ok [textLine 1000 (concatTexts
      [JObjL.ofList [("type", JVal.str "interactionUpdate"), ("subtype", JVal.str "textDelta"),
         ("data", JVal.obj (.cons "text" (.str "Hel") .nil)), ("ts", JVal.num 1000)],
       JObjL.ofList [("type", JVal.str "interactionUpdate"), ("subtype", JVal.str "textDelta"),
         ("data", JVal.obj (.cons "text" (.str "lo") .nil)), ("ts", JVal.num 1002)]])] :=
  coalesce_textdelta_run _ _ false 1000 ⟨rfl, rfl, "Hel", rfl, by decide⟩
    (by
      intro x hx
      rw [List.mem_singleton] at hx
      subst hx
      exact ⟨rfl, rfl, "lo", rfl, by decide⟩)
    rfl

/-- Claim C4: with verbose set, no record is ever classified as noise,
yet text-delta coalescing still applies: a run of
interactionUpdate:textDelta records is still merged into one line rather
than emitted fragment by fragment. -/
theorem verbose_no_noise_still_coalesces :
    (∀ e : Entry, is_noise e true = false) ∧
    (∀ (e : Entry) (es : List Entry) (n : Int), RunCond e → (∀ x ∈ es, RunCond x) →
      dget e "ts" (.num 0) = .num n →
      coalesce_entries (e :: es) true = .ok [textLine n (concatTexts (e :: es))]) :=
  ⟨fun _ => rfl,
   fun e es n he hes hts => coalesce_textrun e es true n he hes hts⟩

/-- Witness for C4 at a concrete record and a concrete one-fragment run. -/
theorem verbose_no_noise_still_coalesces_app :
    is_noise (JObjL.ofList [("type", JVal.str "kvClient")]) true = false ∧
    coalesce_entries
      [JObjL.ofList [("type", JVal.str "interactionUpdate"), ("subtype", JVal.str "textDelta"),
         ("data", JVal.obj (.cons "text" (.str "yo") .nil)), ("ts", JVal.num 7)]] true
    = .ok [textLine 7 (concatTexts
      [JObjL.ofList [("type", JVal.str "interactionUpdate"), ("subtype", JVal.str "textDelta"),
         ("data", JVal.obj (.cons "text" (.str "yo") .nil)), ("ts", JVal.num 7)]])] :=
  ⟨verbose_no_noise_still_coalesces.1 _,
   verbose_no_noise_still_coalesces.2 _ [] 7 ⟨rfl, rfl, "yo", rfl, by decide⟩
     (by intro x hx; exact absurd hx (List.not_mem_nil x)) rfl⟩

/-- Claim C2: a record with type interactionUpdate and subtype in the
always-skip delta set contributes no output line in non-verbose mode and
leaves the pending text accumulator (buffer and timestamp) unchanged. -/
theorem skip_delta_no_output_no_flush (st : CoSt) (e : Entry)
    (h1 : dget e "type" (.str "") = .str "interactionUpdate")
    (h2 : (dget e "subtype" (.str "")).memStrs SKIP_DELTAS = true) :
    coalesce_step false st e = .ok st := by
  obtain ⟨s, hsub, hmem⟩ := memStrs_true _ _ h2
  simp [SKIP_DELTAS] at hmem
  rcases hmem with rfl | rfl | rfl | rfl <;>
    simp [coalesce_step, is_noise, get_delta_type, h1, hsub, JVal.eqs, JVal.memStrs,
      SKIP_DELTAS, COALESCE_DELTAS]

/-- Witness for C2: a heartbeat delta arriving while text is pending. -/
theorem skip_delta_no_output_no_flush_app :
    coalesce_step false ⟨["earlier"], "pending", JVal.num 4⟩
      (JObjL.ofList [("type", JVal.str "interactionUpdate"),
        ("subtype", JVal.str "heartbeat"), ("ts", JVal.num 9)])
    = .ok ⟨["earlier"], "pending", JVal.num 4⟩ :=
  skip_delta_no_output_no_flush _ _ rfl rfl

/-- Claim C3: on the four-record example (textDelta "A", kvClient noise,
textDelta "B", info:builtRunRequest) in non-verbose mode the output is
exactly the coalesced "AB" text line timestamped from the first fragment
followed by the info:builtRunRequest line with detail tools=3; the
kvClient record emits nothing and does not break the merge. -/
theorem coalesce_four_record_example :
    coalesce_entries
      [JObjL.ofList [("type", JVal.str "interactionUpdate"), ("subtype", JVal.str "textDelta"),
         ("data", JVal.obj (.cons "text" (.str "A") .nil)), ("ts", JVal.num 1000)],
       JObjL.ofList [("type", JVal.str "kvClient"), ("ts", JVal.num 1001)],
       JObjL.ofList [("type", JVal.str "interactionUpdate"), ("subtype", JVal.str "textDelta"),
         ("data", JVal.obj (.cons "text" (.str "B") .nil)), ("ts", JVal.num 1002)],
       JObjL.ofList [("type", JVal.str "info"), ("subtype", JVal.str "builtRunRequest"),
         ("data", JVal.obj (.cons "tools" (.num 3) .nil)), ("ts", JVal.num 2000)]] false
    = .ok ["[00:00:01.000] text: AB", "[00:00:02.000] info:builtRunRequest tools=3"] := rfl

theorem str_length_append (a b : String) : (a ++ b).length = a.length + b.length := by
  cases a with
  | mk la =>
    cases b with
    | mk lb =>
      show (String.mk (la ++ lb)).length = _
      simp [String.length]

theorem msToClock_length (n : Int) : (msToClock n).length = 12 := by
  have h2 : ∀ k : Nat, (pad2 k).length = 2 := fun _ => rfl
  have h3 : ∀ k : Nat, (pad3 k).length = 3 := fun _ => rfl
  have hc : (":" : String).length = 1 := rfl
  have hd : ("." : String).length = 1 := rfl
  simp only [msToClock, str_length_append, h2, h3, hc, hd]

/-- Claim C10: whenever the text accumulator is flushed with a non-empty
buffer, the emitted line always clock-converts the stored first-fragment
ts (including ts = 0, the value used for an absent field); the
placeholder form used by format_entry for falsy timestamps is never
produced by a flush. -/
theorem flush_always_clock (out : List String) (buf : String) (n : Int) (h : buf ≠ "") :
    flush_text ⟨out, buf, .num n⟩ = .ok ⟨out ++ [textLine n buf], "", .num 0⟩ ∧
    msToClock n ≠ "??:??:??" := by
  constructor
  · simp only [flush_text, textLine]
    rw [if_pos (bne_iff_ne.mpr h)]
  · intro hq
    have h12 := msToClock_length n
    rw [hq] at h12
    exact absurd h12 (by decide)

/-- Witness for C10 with the defaulted timestamp 0. -/
theorem flush_always_clock_app :
    flush_text ⟨[], "a", .num 0⟩ = .ok ⟨[] ++ [textLine 0 "a"], "", .num 0⟩ ∧
    msToClock 0 ≠ "??:??:??" :=
  flush_always_clock [] "a" 0 (by decide)

/-- Claim C7: for a serverMessage:execServerMessage record whose payload
message has case shellArgs, the detail is a single space, "shell:", and
the command truncated to its first 50 characters; at command "echo hi"
the detail is exactly " shell:echo hi". -/
theorem shellargs_detail :
    (∀ cmd : String,
      format_data (.str "serverMessage") (.str "execServerMessage")
        (.obj (.cons "message" (.obj (.cons "case" (.str "shellArgs")
          (.cons "value" (.obj (.cons "command" (.str cmd) .nil)) .nil))) .nil))
      = .ok (" shell:" ++ pyTake cmd 50)) ∧
    format_data (.str "serverMessage") (.str "execServerMessage")
      (.obj (.cons "message" (.obj (.cons "case" (.str "shellArgs")
        (.cons "value" (.obj (.cons "command" (.str "echo hi") .nil)) .nil))) .nil))
      = .ok " shell:echo hi" :=
  ⟨fun _ => rfl, rfl⟩


/-- Claim C9: an info:interactionUpdate record whose payload updateCase is
textDelta is not noise in non-verbose mode (textDelta is not in the
always-skip set), its text is never appended to the text accumulator
(the buffer stays empty and the stored run timestamp is untouched), and
it is emitted as its own signal line with detail " textDelta" — unlike a
direct interactionUpdate:textDelta record, which is accumulated instead
of emitted. -/
theorem info_wrapped_textdelta_signal (out : List String) (tsv : JVal) (n : Int) :
    is_noise (infoWrappedTextDelta n) false = false ∧
    get_delta_type (infoWrappedTextDelta n) = .str "textDelta" ∧
    coalesce_step false ⟨out, "", tsv⟩ (infoWrappedTextDelta n) =
      .ok ⟨out ++ ["[" ++ (if n == 0 then "??:??:??" else msToClock n) ++ "] " ++
        "info:interactionUpdate" ++ " textDelta"], "", tsv⟩ ∧
    (∀ m : Int, coalesce_step false ⟨out, "", tsv⟩ (directTextDelta "A" m) =
      .ok ⟨out, "A", .num m⟩) := by
  refine ⟨rfl, rfl, ?_, fun m => rfl⟩
  by_cases hn : n = 0
  · subst hn; rfl
  · have ht : truthy (.num n) = true := by simp [truthy, hn]
    have hb : (n == 0) = false := beq_eq_false_iff_ne.mpr hn
    simp only [hb, if_false]
    simp [coalesce_step, is_noise, get_delta_type, format_entry, format_data,
      flush_text, infoWrappedTextDelta, JObjL.ofList, dget, JObjL.lookup, JVal.eqs,
      JVal.memStrs, SKIP_DELTAS, COALESCE_DELTAS, extract_text_delta, truthy, ht,
      pyToStr, hn, pyRepr]
    intro hq
    have hlen := congrArg String.length hq
    simp only [str_length_append] at hlen
    have h1 : ("[" : String).length = 1 := rfl
    have h2 : ("] " : String).length = 2 := rfl
    have h3 : ("info:interactionUpdate" : String).length = 22 := rfl
    have h4 : (" textDelta" : String).length = 10 := rfl
    have h5 : ("" : String).length = 0 := rfl
    have h6 := msToClock_length n
    omega

theorem batch_fold (lines : List String) : ∀ acc : List JVal × List String,
    lines.foldl batch_ingest acc = (acc.1 ++ goodOf lines, acc.2 ++ badOf lines) := by
  induction lines with
  | nil => intro acc; simp [goodOf, badOf]
  | cons l ls ih =>
    intro acc
    rw [List.foldl_cons, ih]
    cases hstrip : (pyStrip l != "") with
    | false =>
      have h0 : pyStrip l = "" := bne_eq_false_iff_eq.mp hstrip
      simp [batch_ingest, goodOf, badOf, List.filterMap_cons, List.filter_cons, hstrip, h0]
    | true =>
      have h0 : ¬pyStrip l = "" := bne_iff_ne.mp hstrip
      cases hj : json_loads l with
      | ok v =>
        simp [batch_ingest, goodOf, badOf, List.filterMap_cons, List.filter_cons,
          hstrip, h0, hj, okOf]
      | error msg =>
        simp [batch_ingest, goodOf, badOf, List.filterMap_cons, List.filter_cons,
          hstrip, h0, hj, okOf]

/-- Claim C5 (amended): in batch mode every non-blank malformed line is
reported with a truncated preview and skipped while parsing continues,
and the malformed-then-valid example yields exactly one record and one
report; in follow mode the malformed line is likewise skipped and
processing continues, but nothing is reported. -/
theorem parse_error_handling :
    (∀ lines : List String, parse_entries lines 0 = (goodOf lines, badOf lines)) ∧
    parse_entries ["\x7bnot json", "\x7b\"type\": \"info\"\x7d"] 0 =
      ([JVal.obj (.cons "type" (.str "info") .nil)], ["[PARSE ERROR] \x7bnot json"]) ∧
    ["\x7bnot json", "\x7b\"type\": \"info\"\x7d"].foldl follow_ingest ([], []) =
      ([JVal.obj (.cons "type" (.str "info") .nil)], []) :=
  ⟨fun lines => by rw [parse_entries]; simpa using batch_fold lines ([], []),
   rfl, rfl⟩

/-- Counterexample to Claim C5 as stated: in follow mode a malformed line
is dropped without any report (the batch path reports it), so the claim
that a malformed line is reported in both consumption modes is false. -/
theorem follow_mode_unreported_parse_error :
    follow_ingest ([], []) "\x7bnot json" = ([], []) ∧
    batch_ingest ([], []) "\x7bnot json" = ([], ["[PARSE ERROR] \x7bnot json"]) :=
  ⟨rfl, rfl⟩

/-- Claim C8 (amended): the shell runner always returns a ShellResult
with the captured output — on external interruption the process group is
signalled gracefully first (SIGINT, then SIGKILL only if it still does
not exit), while on timeout it is killed directly with SIGKILL — and sh
raises (on a non-Windows platform) exactly when no suitable shell can be
located. -/
theorem shell_result_discipline :
    (∀ (args : List String) (cmd : String) (b : PyPrelude.ProcB),
      (∀ o e, b.first = .ret o e →
        PyPrelude.run_with_interrupt args cmd b = (⟨o, e, b.code⟩, [])) ∧
      (∀ o e, b.first = .kbInterrupt → b.second = some (o, e) →
        PyPrelude.run_with_interrupt args cmd b = (⟨o, e, -2⟩, [.sigint])) ∧
      (b.first = .kbInterrupt → b.second = none →
        PyPrelude.run_with_interrupt args cmd b =
          (⟨b.final.1, b.final.2, -2⟩, [.sigint, .sigkill])) ∧
      (b.first = .timedOut →
        PyPrelude.run_with_interrupt args cmd b =
          (⟨b.final.1, b.final.2, -9⟩, [.sigkill]))) ∧
    (∀ (env : PyPrelude.Env) (b : PyPrelude.ProcB)
        (w : Option (String × String × Int)) (cmd : String),
      env.isWindows = false →
      ((∃ rs, PyPrelude.sh env b w cmd = .ok rs) ↔
        PyPrelude.sh_select_shell env ≠ none)) := by
  refine ⟨fun args cmd b => ⟨?_, ?_, ?_, ?_⟩, fun env b w cmd hwin => ?_⟩
  · intro o e h; simp [PyPrelude.run_with_interrupt, h]
  · intro o e h hs; simp [PyPrelude.run_with_interrupt, h, hs]
  · intro h hs; simp [PyPrelude.run_with_interrupt, h, hs]
  · intro h; simp [PyPrelude.run_with_interrupt, h]
  · cases hsel : PyPrelude.sh_select_shell env with
    | some p =>
      constructor
      · intro _; simp
      · intro _
        unfold PyPrelude.sh
        rw [hsel]
        exact ⟨_, rfl⟩
    | none =>
      constructor
      · rintro ⟨rs, hrs⟩
        simp [PyPrelude.sh, hsel, hwin] at hrs
      · intro hne; exact absurd rfl hne

/-- Witness for C8 at concrete processes — one timed out, one
interrupted and exiting within the grace period, one interrupted and
surviving it — and a shell-less non-Windows environment. -/
theorem shell_result_discipline_app :
    PyPrelude.run_with_interrupt ["sh", "-c", "true"] "true"
      ⟨.timedOut, none, ("out", "err"), 0⟩ = (⟨"out", "err", -9⟩, [.sigkill]) ∧
    PyPrelude.run_with_interrupt ["sh", "-c", "true"] "true"
      ⟨.kbInterrupt, some ("go", "ge"), ("fo", "fe"), 0⟩ = (⟨"go", "ge", -2⟩, [.sigint]) ∧
    PyPrelude.run_with_interrupt ["sh", "-c", "true"] "true"
      ⟨.kbInterrupt, none, ("fo", "fe"), 0⟩ = (⟨"fo", "fe", -2⟩, [.sigint, .sigkill]) ∧
    ((∃ rs, PyPrelude.sh ⟨"", false, none, none, none, false, "", false⟩
        ⟨.timedOut, none, ("out", "err"), 0⟩ none "true" = .ok rs) ↔
      PyPrelude.sh_select_shell ⟨"", false, none, none, none, false, "", false⟩ ≠ none) :=
  ⟨(shell_result_discipline.1 ["sh", "-c", "true"] "true"
      ⟨.timedOut, none, ("out", "err"), 0⟩).2.2.2 rfl,
   (shell_result_discipline.1 ["sh", "-c", "true"] "true"
      ⟨.kbInterrupt, some ("go", "ge"), ("fo", "fe"), 0⟩).2.1 "go" "ge" rfl rfl,
   (shell_result_discipline.1 ["sh", "-c", "true"] "true"
      ⟨.kbInterrupt, none, ("fo", "fe"), 0⟩).2.2.1 rfl rfl,
   shell_result_discipline.2 ⟨"", false, none, none, none, false, "", false⟩
      ⟨.timedOut, none, ("out", "err"), 0⟩ none "true" rfl⟩

/-- Counterexample to Claim C8 as stated: on timeout the process group is
sent only SIGKILL — no graceful signal precedes it — so the claim that a
timed-out command receives a graceful-then-forceful signal sequence is
false at this input. -/
theorem timeout_sends_only_sigkill :
    PyPrelude.run_with_interrupt ["sh", "-c", "sleep 99"] "sleep 99"
      ⟨.timedOut, none, ("o", "e"), 0⟩ = (⟨"o", "e", -9⟩, [.sigkill]) ∧
    PyPrelude.Sig.sigint ∉
      (PyPrelude.run_with_interrupt ["sh", "-c", "sleep 99"] "sleep 99"
        ⟨.timedOut, none, ("o", "e"), 0⟩).2 :=
  ⟨rfl, by decide⟩
